import Mathlib

/-!
Shallow embedding of the delivery-orchestration core of `itnews_sender`.

Embedded source files:
  - `lambda_handler.py` (the Orchestrator: `handler`, `sanitize_error`)
  - `src/execution_tracker.py` (`ExecutionTracker`)
  - `src/failure_tracker.py` (`FailureTracker`)
  - `src/email_sender.py` (`EmailSender.send_bulk_email`)

The DynamoDB ledger store is modelled as an association list from string
keys to records, with explicit fault injection for store errors (a fault
models a raised `ClientError` with a code, or any other exception).
Wall-clock quantities (current KST date, ISO timestamps, TTL epochs,
`duration_ms`) are passed in as parameters or elided when no claim
observes them.
-/

namespace ItnewsSender

/-! ## Generic association-list store (models a DynamoDB table keyed by a string) -/

/-- Lookup of a key in an association-list store (DynamoDB `get_item`). -/
def alookup {α : Type} : List (String × α) → String → Option α
  | [], _ => none
  | (k2, v) :: rest, k => if k2 = k then some v else alookup rest k

/-- Remove every entry for a key (DynamoDB `delete_item`; keys are unique in
DynamoDB, filtering all occurrences is the faithful quotient). -/
def aremove {α : Type} (store : List (String × α)) (k : String) : List (String × α) :=
  store.filter (fun p => p.1 != k)

/-- Insert-or-replace for a key (DynamoDB `put_item` / `update_item` write). -/
def ainsert {α : Type} (store : List (String × α)) (k : String) (v : α) : List (String × α) :=
  (k, v) :: aremove store k

/-! ## Character/string machinery for the Python regex substitutions

`lambda_handler.sanitize_error` applies five `re.sub` calls with
`re.IGNORECASE`.  Each of the five patterns is a literal alternation
followed by deterministic character-class runs, so each is embedded as a
specialised matcher; `reSub` reproduces `re.sub` scanning (leftmost,
non-overlapping, continue after the match).  Case-insensitivity is ASCII,
which covers every literal occurring in the patterns. -/

/-- ASCII lowercase (the patterns contain only ASCII letters). -/
def lcChar (c : Char) : Char :=
  if 'A' ≤ c ∧ c ≤ 'Z' then Char.ofNat (c.toNat + 32) else c

/-- Python `\s` on the ASCII range. -/
def isPySpace (c : Char) : Bool :=
  c = ' ' || c = '\t' || c = '\n' || c = '\r' || c = '\x0b' || c = '\x0c'

/-- Case-insensitive match of a (lowercase) literal as a prefix; returns the
matched original text and the remainder. -/
def matchLitCI : List Char → List Char → Option (List Char × List Char)
  | [], s => some ([], s)
  | _ :: _, [] => none
  | p :: ps, c :: cs =>
    if lcChar c = p then
      match matchLitCI ps cs with
      | some (m, r) => some (c :: m, r)
      | none => none
    else none

/-- Does the first list occur as a prefix of the second (case-sensitive)? -/
def prefixOfChars : List Char → List Char → Bool
  | [], _ => true
  | _ :: _, [] => false
  | p :: ps, c :: cs => p = c && prefixOfChars ps cs

/-- Does `needle` occur as a contiguous substring of `s`? -/
def containsSub (needle : List Char) : List Char → Bool
  | [] => prefixOfChars needle []
  | c :: cs => prefixOfChars needle (c :: cs) || containsSub needle cs

/-- The Python `needle in hay` test on strings. -/
def strContains (hay needle : String) : Bool :=
  containsSub needle.data hay.data

/-- Try the ordered alternation `(alt1|alt2|...)` followed by a literal `=`;
returns the remainder after the `=`.  (Python tries alternatives in order
and backtracks to the next alternative when the following `=` fails.) -/
def matchKeyEq : List (List Char) → List Char → Option (List Char)
  | [], _ => none
  | a :: rest, s =>
    match matchLitCI a s with
    | some (_, '=' :: r2) => some r2
    | _ => matchKeyEq rest s

/-- Greedy run of `[^&\s]*`: drop the value characters, return the rest. -/
def dropValueRun (s : List Char) : List Char :=
  s.dropWhile (fun c => !(c = '&' || isPySpace c))

/-- Alternation of pattern 1: `(password|passwd|pwd)`. -/
def passwordAlts : List (List Char) :=
  [String.data "password", String.data "passwd", String.data "pwd"]

/-- Alternation of pattern 2: `(token|secret|key|apikey|api_key)`. -/
def tokenAlts : List (List Char) :=
  [String.data "token", String.data "secret", String.data "key",
   String.data "apikey", String.data "api_key"]

/-- Alternation of pattern 5: `(password|passwd|pwd|token|secret|key)`. -/
def jsonKeyAlts : List (List Char) :=
  [String.data "password", String.data "passwd", String.data "pwd",
   String.data "token", String.data "secret", String.data "key"]

/-- Pattern 1: `(password|passwd|pwd)=[^&\s]*` → `password=[REDACTED]`. -/
def matchPassword (s : List Char) : Option (List Char × List Char) :=
  match matchKeyEq passwordAlts s with
  | some r => some (String.data "password=[REDACTED]", dropValueRun r)
  | none => none

/-- Pattern 2: `(token|secret|key|apikey|api_key)=[^&\s]*` → `token=[REDACTED]`. -/
def matchToken (s : List Char) : Option (List Char × List Char) :=
  match matchKeyEq tokenAlts s with
  | some r => some (String.data "token=[REDACTED]", dropValueRun r)
  | none => none

/-- Pattern 3: `Authorization:\s*[^\s]+` → `Authorization: [REDACTED]`. -/
def matchAuthorization (s : List Char) : Option (List Char × List Char) :=
  match matchLitCI (String.data "authorization:") s with
  | some (_, r) =>
    let r2 := r.dropWhile isPySpace
    match r2.span (fun c => !isPySpace c) with
    | ([], _) => none
    | (_ :: _, r3) => some (String.data "Authorization: [REDACTED]", r3)
  | none => none

/-- Pattern 4: `Bearer\s+[^\s]+` → `Bearer [REDACTED]`. -/
def matchBearer (s : List Char) : Option (List Char × List Char) :=
  match matchLitCI (String.data "bearer") s with
  | some (_, r) =>
    match r.span isPySpace with
    | ([], _) => none
    | (_ :: _, r2) =>
      match r2.span (fun c => !isPySpace c) with
      | ([], _) => none
      | (_ :: _, r3) => some (String.data "Bearer [REDACTED]", r3)
  | none => none

/-- The ordered alternation of pattern 5 followed by the literal `":`;
captures the original-case matched group. -/
def matchKeyQuoted : List (List Char) → List Char → Option (List Char × List Char)
  | [], _ => none
  | a :: rest, s =>
    match matchLitCI a s with
    | some (orig, '\"' :: ':' :: r2) => some (orig, r2)
    | _ => matchKeyQuoted rest s

/-- Pattern 5: `"(password|passwd|pwd|token|secret|key)":\s*"[^"]*"` →
`"\1": "[REDACTED]"` (the replacement keeps the captured key). -/
def matchJsonSecret (s : List Char) : Option (List Char × List Char) :=
  match s with
  | '\"' :: s1 =>
    match matchKeyQuoted jsonKeyAlts s1 with
    | some (orig, r2) =>
      let r3 := r2.dropWhile isPySpace
      match r3 with
      | '\"' :: r4 =>
        match r4.span (fun c => !(c = '\"')) with
        | (_, '\"' :: r5) =>
          some ('\"' :: (orig ++ String.data "\": \"[REDACTED]\""), r5)
        | _ => none
      | _ => none
    | none => none
  | _ => none

/-- `re.sub` scanning with explicit fuel: at each position, if the matcher
matches (always consuming at least one character for our five patterns),
emit the replacement and continue after the match; otherwise keep the
character and advance one position. -/
def applySub (m : List Char → Option (List Char × List Char)) :
    Nat → List Char → List Char
  | 0, s => s
  | _ + 1, [] => []
  | fuel + 1, c :: cs =>
    match m (c :: cs) with
    | some (rep, rest) => rep ++ applySub m fuel rest
    | none => c :: applySub m fuel cs

/-- One full `re.sub(pattern, repl, s, flags=re.IGNORECASE)` pass. -/
def reSub (m : List Char → Option (List Char × List Char)) (s : List Char) : List Char :=
  applySub m s.length s

/-- `lambda_handler.sanitize_error`: the five substitutions applied in
source order. -/
def sanitize_error (error_msg : String) : String :=
  String.mk (reSub matchJsonSecret (reSub matchBearer (reSub matchAuthorization
    (reSub matchToken (reSub matchPassword error_msg.data)))))

/-! ## Ledger store faults

A `StoreFault` injected into a tracker operation models the boto3 call
raising: either a `botocore` `ClientError` carrying an error code, or any
other exception. `none` means the store call itself succeeds (for a
conditional put, the condition may still fail, which surfaces as a
`ClientError` with code `ConditionalCheckFailedException`). -/

inductive StoreFault
  | clientError (code : String)
  | otherException (msg : String)
deriving DecidableEq

/-! ## `src/execution_tracker.py` — ExecutionTracker (Idempotency Gate) -/

/-- An item of the `etnews-execution-log` table. -/
structure ExecRecord where
  date : String
  mode : String
  request_id : String
  execution_time : String
  ttl : Nat
deriving DecidableEq

/-- The execution-log table, keyed by `execution_key`. -/
abbrev ExecStore := List (String × ExecRecord)

namespace ExecutionTracker

/-- `ExecutionTracker._get_execution_key`: the composite key `date#mode`. -/
def get_execution_key (today mode : String) : String :=
  today ++ "#" ++ mode

/-- DynamoDB `put_item` with
`ConditionExpression="attribute_not_exists(execution_key)"`: an injected
fault raises; otherwise the put fails with a
`ConditionalCheckFailedException` `ClientError` when the key exists, and
inserts when it does not. -/
def put_item_conditional (fault : Option StoreFault) (store : ExecStore)
    (k : String) (item : ExecRecord) : Except StoreFault ExecStore :=
  match fault with
  | some f => .error f
  | none =>
    if (alookup store k).isSome then
      .error (.clientError "ConditionalCheckFailedException")
    else
      .ok ((k, item) :: store)

/-- `ExecutionTracker.mark_execution`: conditional create of the day+mode
record. Returns `true` on creation; `false` on a conditional-check
conflict; and also `false` on every other `ClientError` and on every other
exception (source lines 122-131 catch them all and return `False`). -/
def mark_execution (fault : Option StoreFault) (store : ExecStore)
    (today mode request_id now : String) (ttl : Nat) : Bool × ExecStore :=
  let k := get_execution_key today mode
  let item : ExecRecord :=
    { date := today, mode := mode, request_id := request_id
    , execution_time := now, ttl := ttl }
  match put_item_conditional fault store k item with
  | .ok s2 => (true, s2)
  | .error (.clientError _) => (false, store)
  | .error (.otherException _) => (false, store)

/-- DynamoDB `get_item` on the execution-log table, with fault injection. -/
def get_item (fault : Option String) (store : ExecStore) (k : String) :
    Except String (Option ExecRecord) :=
  match fault with
  | some e => .error e
  | none => .ok (alookup store k)

/-- `ExecutionTracker.should_skip_execution`: `true` iff the record for
today+mode exists; any read exception is caught and yields `false`
(source lines 80-83). -/
def should_skip_execution (fault : Option String) (store : ExecStore)
    (today mode : String) : Bool :=
  match get_item fault store (get_execution_key today mode) with
  | .error _ => false
  | .ok (some _) => true
  | .ok none => false

end ExecutionTracker

/-! ## `src/failure_tracker.py` — FailureTracker (Circuit Breaker) -/

/-- An item of the `etnews-delivery-failures` table. -/
structure FailureRecord where
  failure_count : Nat
  last_error : String
  updated_at : String
  ttl : Nat
deriving DecidableEq

/-- The failure table, keyed by the KST date string. -/
abbrev FailStore := List (String × FailureRecord)

namespace FailureTracker

/-- DynamoDB `get_item` on the failure table, with fault injection. -/
def get_item (fault : Option String) (store : FailStore) (k : String) :
    Except String (Option FailureRecord) :=
  match fault with
  | some e => .error e
  | none => .ok (alookup store k)

/-- `FailureTracker.should_skip_today`: `true` iff the record for today
exists with `failure_count >= 3`; absence of a record, and any read
exception (source lines 64-67), yield `false`. -/
def should_skip_today (fault : Option String) (store : FailStore)
    (today : String) : Bool :=
  match get_item fault store today with
  | .error _ => false
  | .ok none => false
  | .ok (some item) => if 3 ≤ item.failure_count then true else false

/-- `FailureTracker.increment_failure`: atomic `ADD failure_count 1` with
`SET last_error` (truncated to 500 characters), returning the
post-increment count; a missing record starts the count from 0; any store
exception is caught and the function returns 1 (source lines 107-109). -/
def increment_failure (fault : Option String) (store : FailStore)
    (today error_message now : String) (ttl : Nat) : Nat × FailStore :=
  match fault with
  | some _ => (1, store)
  | none =>
    let prev :=
      match alookup store today with
      | some r => r.failure_count
      | none => 0
    let item : FailureRecord :=
      { failure_count := prev + 1
      , last_error := String.mk (error_message.data.take 500)
      , updated_at := now, ttl := ttl }
    (prev + 1, ainsert store today item)

/-- `FailureTracker.reset_today`: deletes the record for today; any store
exception is caught and yields `false` with the store unchanged. -/
def reset_today (fault : Option String) (store : FailStore)
    (today : String) : Bool × FailStore :=
  match fault with
  | some _ => (false, store)
  | none => (true, aremove store today)

end FailureTracker

/-! ## `src/email_sender.py` — EmailSender (Bulk Dispatcher)

The per-recipient send (personalised message rendering plus SMTP
transmission with its bounded retry) is an external collaborator; its
outcome for each recipient is supplied as `sendOk : String → Bool`
(`false` models the per-recipient try-block raising after transport
exhaustion). -/

namespace EmailSender

/-- `EmailSender.send_bulk_email`: empty active-recipient list returns
`(False, [])` (source lines 92-94); otherwise each recipient is attempted
in order, per-recipient exceptions are caught without aborting the loop,
and the result is `(len(success_emails) > 0, success_emails)` (source
lines 104-129). -/
def send_bulk_email (recipients : List String) (sendOk : String → Bool) :
    Bool × List String :=
  match recipients with
  | [] => (false, [])
  | _ :: _ =>
    let success_emails := recipients.filter sendOk
    (decide (0 < success_emails.length), success_emails)

end EmailSender

/-! ## `lambda_handler.py` — the Orchestrator

The handler is embedded as a pure function from a `HandlerInput`
(invocation event, collaborator outcomes, ledger-store contents and
injected faults) to a `HandlerResult` (the returned payload, the final
ledger stores, and the admin notifications attempted).

Elided stages, none of which can change the modelled observables:
the ITFIND side-download (all its errors are caught and only add an
optional attachment), step 5 delivery-history write and step 6 iCloud
upload (both catch their errors and their results are ignored), the
`finally` temp-file cleanup, logging, and the wall-clock `duration_ms`
field of the bodies. The PDF transform (`process_pdf`) sits on the
modelled path and may raise, so it is kept as an `Except` input. -/

/-- A JSON value as far as the handler response bodies need. -/
inductive JsonVal
  | s (v : String)
  | b (v : Bool)
deriving DecidableEq

/-- A JSON object body, as an ordered key-value list. -/
abbrev Body := List (String × JsonVal)

/-- The dict returned by `handler`. -/
structure LambdaResponse where
  statusCode : Nat
  body : Body
deriving DecidableEq

/-- Outcome of the fetch collaborator `download_pdf_sync()`:
success with `(pdf_path, page_info)`, a raised `ValueError`, or any other
raised exception. -/
inductive FetchOutcome
  | fetched (pdf_path page_info : String)
  | valueError (msg : String)
  | otherError (msg : String)
deriving DecidableEq

/-- Everything one invocation of `handler` consumes. -/
structure HandlerInput where
  mode : String
  skip_idempotency : Bool
  request_id : String
  /-- The KST date string used by both trackers for the logical day. -/
  today : String
  /-- The ISO timestamp written into ledger records. -/
  now : String
  /-- The TTL epoch written into ledger records. -/
  ttl : Nat
  execFault : Option StoreFault
  execStore : ExecStore
  /-- Fault of the breaker-check `get_item` call (stage 1 read). -/
  failReadFault : Option String
  /-- Fault of the breaker `update_item`/`delete_item` call (write after
  the fetch outcome); a separate boto3 round trip from the read. -/
  failWriteFault : Option String
  failStore : FailStore
  fetch : FetchOutcome
  /-- Outcome of `process_pdf`: the processed path, or a raised error. -/
  transform : Except String String
  /-- The active recipient list read by the dispatcher. -/
  recipients : List String
  /-- Per-recipient transport outcome inside the dispatcher loop. -/
  sendOk : String → Bool

/-- Everything one invocation of `handler` produces that a claim observes. -/
structure HandlerResult where
  response : LambdaResponse
  execStore : ExecStore
  failStore : FailStore
  /-- `(subject, message)` of each `_send_admin_notification` attempt. -/
  notifications : List (String × String)
deriving DecidableEq

/-- Positional constructor for `HandlerInput`. -/
def mkInput (mode : String) (skip_idempotency : Bool)
    (request_id today now : String) (ttl : Nat)
    (execFault : Option StoreFault) (execStore : ExecStore)
    (failReadFault failWriteFault : Option String) (failStore : FailStore)
    (fetch : FetchOutcome) (transform : Except String String)
    (recipients : List String) (sendOk : String → Bool) : HandlerInput :=
  { mode := mode, skip_idempotency := skip_idempotency
  , request_id := request_id, today := today, now := now, ttl := ttl
  , execFault := execFault, execStore := execStore
  , failReadFault := failReadFault, failWriteFault := failWriteFault
  , failStore := failStore
  , fetch := fetch, transform := transform
  , recipients := recipients, sendOk := sendOk }

/-- Response of the duplicate-execution skip (handler lines 162-169). -/
def respDuplicate (mode : String) : LambdaResponse :=
  { statusCode := 200
  , body :=
      [("message", .s ("오늘 이미 " ++ mode ++ " 모드로 실행되었습니다 (중복 실행 방지)"))
      , ("skipped", .b true)
      , ("reason", .s "already_executed_today")] }

/-- Response of the circuit-breaker skip (handler lines 193-200). -/
def respTooManyFailures : LambdaResponse :=
  { statusCode := 200
  , body :=
      [("message", .s "오늘 3회 이상 실패하여 발송 건너뜀")
      , ("skipped", .b true)
      , ("reason", .s "too_many_failures")] }

/-- Response of the newspaper-not-published skip (handler lines 225-231):
note it carries no "reason" entry. -/
def respNotPublished : LambdaResponse :=
  { statusCode := 200
  , body :=
      [("message", .s "신문이 발행되지 않은 날입니다")
      , ("skipped", .b true)] }

/-- Response of the outer exception handler (handler lines 414-421): the
error entry is the raw `str(e)`. `duration_ms` is elided (wall clock). -/
def respFailure (error_msg error_type : String) : LambdaResponse :=
  { statusCode := 500
  , body :=
      [("message", .s "IT뉴스 PDF 전송 실패")
      , ("error", .s error_msg)
      , ("error_type", .s error_type)] }

/-- Success response (handler lines 391-399), `duration_ms` elided. -/
def respSuccess (pdf_path processed_pdf_path : String) : LambdaResponse :=
  { statusCode := 200
  , body :=
      [("message", .s "IT뉴스 PDF 전송 성공")
      , ("pdf_path", .s pdf_path)
      , ("processed_pdf_path", .s processed_pdf_path)] }

/-- Subject of the circuit-breaker admin notification (handler line 187). -/
def breakerSubject : String := "[etnews-pdf-sender] 발송 실패 알림"

/-- Message of the circuit-breaker admin notification (handler line 188). -/
def breakerMessage : String := "오늘 3회 이상 PDF 다운로드에 실패하여 발송을 건너뜁니다."

/-- Subject of the download-failure escalation (handler lines 242, 259). -/
def escalationSubject : String := "[etnews-pdf-sender] PDF 다운로드 실패 알림"

/-- Message of the download-failure escalation (handler lines 243, 260):
built from the sanitized error. -/
def escalationMessage (sanitized : String) : String :=
  "PDF 다운로드가 3회 연속 실패했습니다.\n\n오류: " ++ sanitized

/-- The marker tested by `"신문이 발행되지 않은 날" in str(ve)` (line 215). -/
def notPublishedMarker : String := "신문이 발행되지 않은 날"

/-- The fetch-failure branch shared by the `ValueError` (non-marker) and
generic-exception handlers (handler lines 232-265): increment the failure
count, escalate when the post-increment count is at least 3, re-raise, so
the outer handler returns the 500 response with the raw message. -/
def fetchFailureBranch (inp : HandlerInput) (execStore1 : ExecStore)
    (msg error_type : String) : HandlerResult :=
  let ic := FailureTracker.increment_failure inp.failWriteFault inp.failStore
    inp.today msg inp.now inp.ttl
  let notes :=
    if 3 ≤ ic.1 then [(escalationSubject, escalationMessage (sanitize_error msg))]
    else []
  { response := respFailure msg error_type
  , execStore := execStore1, failStore := ic.2, notifications := notes }

/-- `lambda_handler.handler`, stages 0-4 plus the outer exception handler. -/
def handler (inp : HandlerInput) : HandlerResult :=
  -- Stage 0: idempotency gate (lines 141-171)
  let gate :=
    if inp.skip_idempotency then (true, inp.execStore)
    else ExecutionTracker.mark_execution inp.execFault inp.execStore
      inp.today inp.mode inp.request_id inp.now inp.ttl
  if gate.1 = false then
    { response := respDuplicate inp.mode
    , execStore := gate.2, failStore := inp.failStore, notifications := [] }
  else
    let execStore1 := gate.2
    -- Stage 1: circuit-breaker check (lines 176-202)
    if FailureTracker.should_skip_today inp.failReadFault inp.failStore inp.today then
      { response := respTooManyFailures
      , execStore := execStore1, failStore := inp.failStore
      , notifications := [(breakerSubject, breakerMessage)] }
    else
      -- Stage 2: fetch (lines 204-265)
      match inp.fetch with
      | .valueError msg =>
        if strContains msg notPublishedMarker then
          { response := respNotPublished
          , execStore := execStore1, failStore := inp.failStore
          , notifications := [] }
        else
          fetchFailureBranch inp execStore1 msg "ValueError"
      | .otherError msg =>
        fetchFailureBranch inp execStore1 msg "Exception"
      | .fetched pdf_path _page_info =>
        let failStore1 :=
          (FailureTracker.reset_today inp.failWriteFault inp.failStore inp.today).2
        -- Stage 3: transform (lines 340-343)
        match inp.transform with
        | .error terr =>
          { response := respFailure terr "Exception"
          , execStore := execStore1, failStore := failStore1
          , notifications := [] }
        | .ok processed_pdf_path =>
          -- Stage 4: bulk dispatch (lines 345-358)
          let sendRes := EmailSender.send_bulk_email inp.recipients inp.sendOk
          if sendRes.1 = false then
            { response := respFailure "이메일 전송 실패" "Exception"
            , execStore := execStore1, failStore := failStore1
            , notifications := [] }
          else
            { response := respSuccess pdf_path processed_pdf_path
            , execStore := execStore1, failStore := failStore1
            , notifications := [] }

/-! ## Helper lemmas -/

/-- Looking up a key after removing it finds nothing. -/
theorem alookup_aremove_self {α : Type} (store : List (String × α)) (k : String) :
    alookup (aremove store k) k = none := by
  induction store with
  | nil => rfl
  | cons p rest ih =>
    by_cases h : p.1 = k
    · simpa [aremove, List.filter_cons, h] using ih
    · simp only [aremove, List.filter_cons] at ih ⊢
      simp [h, alookup, ih]

/-! ## Claim theorems -/

/-- Claim C1: for every (logical day, mode) pair and store with no record
for that key, the first `mark_execution` call performs the conditional
create, succeeds and returns `true` (Acquired), writing the record; a
second call for the same key — with arbitrary request id and timestamp,
i.e. any elapsed time within the day — returns `false` (AlreadyRun) and
leaves the store, hence the existing record, unchanged. -/
theorem mark_execution_acquired_then_alreadyRun
    (store : ExecStore) (today mode r1 r2 n1 n2 : String) (t1 t2 : Nat)
    (h : alookup store (ExecutionTracker.get_execution_key today mode) = none) :
    (ExecutionTracker.mark_execution none store today mode r1 n1 t1).1 = true
    ∧ alookup (ExecutionTracker.mark_execution none store today mode r1 n1 t1).2
        (ExecutionTracker.get_execution_key today mode)
      = some { date := today, mode := mode, request_id := r1
             , execution_time := n1, ttl := t1 }
    ∧ (ExecutionTracker.mark_execution none
        (ExecutionTracker.mark_execution none store today mode r1 n1 t1).2
        today mode r2 n2 t2).1 = false
    ∧ (ExecutionTracker.mark_execution none
        (ExecutionTracker.mark_execution none store today mode r1 n1 t1).2
        today mode r2 n2 t2).2
      = (ExecutionTracker.mark_execution none store today mode r1 n1 t1).2 := by
  simp [ExecutionTracker.mark_execution, ExecutionTracker.put_item_conditional,
    h, alookup]

/-- Witness for C1 at a concrete day, mode and empty store. -/
theorem mark_execution_acquired_then_alreadyRun_witness :
    alookup ([] : ExecStore) (ExecutionTracker.get_execution_key "2026-10-08" "opr") = none
    ∧ ((ExecutionTracker.mark_execution none [] "2026-10-08" "opr" "req-a" "n1" 7).1 = true
       ∧ alookup (ExecutionTracker.mark_execution none [] "2026-10-08" "opr" "req-a" "n1" 7).2
           (ExecutionTracker.get_execution_key "2026-10-08" "opr")
         = some { date := "2026-10-08", mode := "opr", request_id := "req-a"
                , execution_time := "n1", ttl := 7 }
       ∧ (ExecutionTracker.mark_execution none
           (ExecutionTracker.mark_execution none [] "2026-10-08" "opr" "req-a" "n1" 7).2
           "2026-10-08" "opr" "req-b" "n2" 8).1 = false
       ∧ (ExecutionTracker.mark_execution none
           (ExecutionTracker.mark_execution none [] "2026-10-08" "opr" "req-a" "n1" 7).2
           "2026-10-08" "opr" "req-b" "n2" 8).2
         = (ExecutionTracker.mark_execution none [] "2026-10-08" "opr" "req-a" "n1" 7).2) :=
  ⟨rfl, mark_execution_acquired_then_alreadyRun []
    "2026-10-08" "opr" "req-a" "req-b" "n1" "n2" 7 8 rfl⟩

/-- Claim C3: for every store and day, `should_skip_today` returns `true`
iff a FailureRecord for the day exists with `failure_count` at least 3
(absence means `false`); and after `reset_today` the FailureRecord for
the day is gone, so `should_skip_today` returns `false` for that day. -/
theorem should_skip_today_threshold_and_reset (store : FailStore) (today : String) :
    (FailureTracker.should_skip_today none store today = true
      ↔ ∃ r, alookup store today = some r ∧ 3 ≤ r.failure_count)
    ∧ alookup (FailureTracker.reset_today none store today).2 today = none
    ∧ FailureTracker.should_skip_today none
        (FailureTracker.reset_today none store today).2 today = false := by
  refine ⟨?_, ?_, ?_⟩
  · cases h : alookup store today with
    | none =>
      simp [FailureTracker.should_skip_today, FailureTracker.get_item, h]
    | some r =>
      simp [FailureTracker.should_skip_today, FailureTracker.get_item, h]
  · simpa [FailureTracker.reset_today] using alookup_aremove_self store today
  · simp [FailureTracker.should_skip_today, FailureTracker.get_item,
      FailureTracker.reset_today, alookup_aremove_self]

/-- Claim C10: if the ledger-store read raises, both read-side guards
catch the exception and return `false` — a store outage at the check
stage can never by itself cause the run to be skipped. -/
theorem read_guards_fail_open (emsg1 emsg2 : String)
    (fstore : FailStore) (estore : ExecStore) (today mode : String) :
    FailureTracker.should_skip_today (some emsg1) fstore today = false
    ∧ ExecutionTracker.should_skip_execution (some emsg2) estore today mode = false :=
  ⟨rfl, rfl⟩

/-- Concrete store fault for the C2 counterexample: the ledger store is
unreachable (a generic exception, not a creation conflict). -/
def c2Fault : StoreFault :=
  .otherException "Could not connect to the endpoint URL"

/-- Concrete invocation for the C2 counterexample: everything healthy
except that the gate's conditional-create call raises `c2Fault`. -/
def c2Input : HandlerInput :=
  mkInput "opr" false "req-c2" "2026-10-08" "2026-10-07T23:00:00Z" 7
    (some c2Fault) [] none none []
    (.fetched "/tmp/etnews.pdf" "pages") (.ok "/tmp/etnews_processed.pdf")
    ["a@example.com"] (fun _ => true)

/-- Counterexample to claim C2: when the gate's conditional create fails
with a store error that is not a creation conflict (store unreachable),
the run is NOT aborted as a failure — `mark_execution` swallows the error
and returns `false`, and the handler answers with the 200
duplicate-run-skip response, reason `already_executed_today`. -/
theorem gate_store_error_not_aborted_counterexample :
    (ExecutionTracker.mark_execution (some c2Fault) []
      "2026-10-08" "opr" "req-c2" "2026-10-07T23:00:00Z" 7).1 = false
    ∧ (handler c2Input).response.statusCode = 200
    ∧ alookup (handler c2Input).response.body "reason"
        = some (JsonVal.s "already_executed_today")
    ∧ (handler c2Input).response = respDuplicate "opr" := by
  decide

/-- Amended claim C2: when the gate's conditional create fails with any
injected store error (`ClientError` of any code, or any other exception),
`mark_execution` returns `false`, and the handler therefore treats the
run exactly like a duplicate trigger: it returns the duplicate-run skip
response instead of aborting with a failure. -/
theorem gate_store_error_treated_as_duplicate_skip
    (f : StoreFault) (inp : HandlerInput)
    (hf : inp.execFault = some f) (hskip : inp.skip_idempotency = false) :
    (ExecutionTracker.mark_execution (some f) inp.execStore inp.today inp.mode
      inp.request_id inp.now inp.ttl).1 = false
    ∧ (handler inp).response = respDuplicate inp.mode
    ∧ (handler inp).notifications = [] := by
  cases f <;>
    simp [handler, ExecutionTracker.mark_execution,
      ExecutionTracker.put_item_conditional, hf, hskip]

/-- Witness for the amended C2 at the concrete unreachable-store input. -/
theorem gate_store_error_treated_as_duplicate_skip_witness :
    (c2Input.execFault = some c2Fault ∧ c2Input.skip_idempotency = false)
    ∧ ((ExecutionTracker.mark_execution (some c2Fault) c2Input.execStore
          c2Input.today c2Input.mode c2Input.request_id c2Input.now c2Input.ttl).1 = false
       ∧ (handler c2Input).response = respDuplicate c2Input.mode
       ∧ (handler c2Input).notifications = []) :=
  ⟨⟨rfl, rfl⟩, gate_store_error_treated_as_duplicate_skip c2Fault c2Input rfl rfl⟩

/-- Claim C4: whenever a fetch failure's post-increment failure count is
at least 3 — not only on the 2 → 3 transition — the handler sends the
escalation notification to the operator, with the message built from the
sanitized error. -/
theorem escalation_on_every_count_at_or_above_threshold
    (mode rid today now msg : String) (ttl : Nat)
    (rf : Option String) (estore : ExecStore) (fstore : FailStore)
    (tr : Except String String) (rs : List String) (ok : String → Bool)
    (hgate : alookup estore (ExecutionTracker.get_execution_key today mode) = none)
    (hbreaker : FailureTracker.should_skip_today rf fstore today = false)
    (hcount : 3 ≤ (FailureTracker.increment_failure none fstore today msg now ttl).1) :
    (handler (mkInput mode false rid today now ttl none estore rf none fstore
        (.otherError msg) tr rs ok)).notifications
      = [(escalationSubject, escalationMessage (sanitize_error msg))] := by
  simp [handler, mkInput, ExecutionTracker.mark_execution,
    ExecutionTracker.put_item_conditional, hgate, hbreaker,
    fetchFailureBranch, hcount]

/-- A failure store that already records 3 failures for the day: with the
breaker read failing open (transient read error), the next failure
increments the count to 4, strictly above the threshold. -/
def c4Store : FailStore :=
  [("2026-10-08",
    { failure_count := 3, last_error := "timeout", updated_at := "u", ttl := 7 })]

/-- Witness for C4 at a post-increment count of 4 (a failure above the
threshold, not the 2 → 3 crossing): the breaker read faults open, the
increment succeeds, and the escalation fires with the sanitized error. -/
theorem escalation_on_every_count_at_or_above_threshold_witness :
    (alookup ([] : ExecStore) (ExecutionTracker.get_execution_key "2026-10-08" "opr") = none
     ∧ FailureTracker.should_skip_today (some "read timed out") c4Store "2026-10-08" = false
     ∧ 3 ≤ (FailureTracker.increment_failure none c4Store "2026-10-08"
              "fetch failed: password=abc123" "n" 7).1)
    ∧ (handler (mkInput "opr" false "req-c4" "2026-10-08" "n" 7 none []
          (some "read timed out") none c4Store
          (.otherError "fetch failed: password=abc123") (.ok "p")
          ["a@example.com"] (fun _ => true))).notifications
      = [(escalationSubject,
          escalationMessage (sanitize_error "fetch failed: password=abc123"))] :=
  ⟨⟨rfl, rfl, by decide⟩,
    escalation_on_every_count_at_or_above_threshold "opr" "req-c4" "2026-10-08" "n"
      "fetch failed: password=abc123" 7 (some "read timed out") [] c4Store
      (.ok "p") ["a@example.com"] (fun _ => true) rfl rfl (by decide)⟩

/-- Claim C5: the bulk dispatcher catches each per-recipient failure
without aborting the loop; for every recipient list and per-recipient
outcome, the returned success list is exactly the recipients whose send
did not raise (in order, hence a sublist of the input), and the returned
flag equals whether that list is non-empty. In particular, with 5
recipients where only recipient #3's send throws, it returns `true` and
the 4-element success list excluding #3. -/
theorem send_bulk_email_partition :
    (∀ (rs : List String) (ok : String → Bool),
      (EmailSender.send_bulk_email rs ok).2 = rs.filter ok
      ∧ List.Sublist (EmailSender.send_bulk_email rs ok).2 rs
      ∧ (EmailSender.send_bulk_email rs ok).1
        = decide (0 < (EmailSender.send_bulk_email rs ok).2.length))
    ∧ EmailSender.send_bulk_email
        ["a@example.com", "b@example.com", "c@example.com",
         "d@example.com", "e@example.com"]
        (fun r => r != "c@example.com")
      = (true, ["a@example.com", "b@example.com", "d@example.com", "e@example.com"]) := by
  constructor
  · intro rs ok
    cases rs with
    | nil => simp [EmailSender.send_bulk_email]
    | cons a t =>
      refine ⟨rfl, ?_, rfl⟩
      exact List.filter_sublist _
  · decide

/-- Concrete invocation for C6 with an empty active recipient list and
every other collaborator healthy. -/
def c6EmptyInput : HandlerInput :=
  mkInput "opr" false "req-c6" "2026-10-08" "n" 7 none [] none none []
    (.fetched "/tmp/etnews.pdf" "pages") (.ok "/tmp/etnews_processed.pdf")
    [] (fun _ => true)

/-- The same invocation but with two recipients whose sends all fail at
the transport layer: a pure transport failure. -/
def c6AllFailInput : HandlerInput :=
  mkInput "opr" false "req-c6" "2026-10-08" "n" 7 none [] none none []
    (.fetched "/tmp/etnews.pdf" "pages") (.ok "/tmp/etnews_processed.pdf")
    ["a@example.com", "b@example.com"] (fun _ => false)

/-- Counterexample to claim C6: the dispatcher does return `(false, [])`
on the empty recipient list, but the Orchestrator does NOT surface a
distinct "no recipients configured" condition — the whole handler result
for the empty-recipient run is identical to the result of a pure
transport-failure run: the same generic 500 failure response with error
string "이메일 전송 실패" and no reason entry. -/
theorem empty_recipients_indistinct_counterexample :
    EmailSender.send_bulk_email ([] : List String) (fun _ => true) = (false, [])
    ∧ handler c6EmptyInput = handler c6AllFailInput
    ∧ (handler c6EmptyInput).response = respFailure "이메일 전송 실패" "Exception"
    ∧ (handler c6EmptyInput).response.statusCode = 500
    ∧ alookup (handler c6EmptyInput).response.body "reason" = none := by
  decide

/-- Amended claim C6: for every per-recipient outcome function the bulk
dispatcher returns `(false, [])` on the empty recipient list, and the
Orchestrator treats this outcome exactly like a transport failure: the
zero-success check raises the generic email-failure error, producing the
500 failure response — there is no distinct "no recipients configured"
condition. -/
theorem empty_recipients_generic_failure (ok : String → Bool) :
    EmailSender.send_bulk_email [] ok = (false, [])
    ∧ handler c6EmptyInput = handler c6AllFailInput
    ∧ (handler c6EmptyInput).response = respFailure "이메일 전송 실패" "Exception" := by
  refine ⟨rfl, by decide, by decide⟩

/-- Claim C7: the redaction function replaces credential-shaped
substrings by fixed placeholders; on the spec's example
`password=abc123&token=xyz` the output is exactly the two placeholders
and contains neither secret value `abc123` nor `xyz`. -/
theorem sanitize_error_redacts_credentials :
    sanitize_error "password=abc123&token=xyz"
      = "password=[REDACTED]&token=[REDACTED]"
    ∧ strContains (sanitize_error "password=abc123&token=xyz") "abc123" = false
    ∧ strContains (sanitize_error "password=abc123&token=xyz") "xyz" = false := by
  decide

/-- A fetch-failure message that embeds credentials in a request URL. -/
def c8Msg : String :=
  "auth failed: https://news.example.com/login?password=abc123&token=xyz"

/-- Concrete invocation for C8: the fetch collaborator raises with
`c8Msg` and the run ends in the terminal failure outcome. -/
def c8Input : HandlerInput :=
  mkInput "opr" false "req-c8" "2026-10-08" "n" 7 none [] none none []
    (.otherError c8Msg) (.ok "p") ["a@example.com"] (fun _ => true)

/-- Counterexample to claim C8: the error string placed in the failure
response is the raw exception message, which still contains the
credential value `abc123`; the redaction filter would have removed it
(so the string cannot have passed through the filter). -/
theorem failure_response_raw_error_counterexample :
    (handler c8Input).response.statusCode = 500
    ∧ alookup (handler c8Input).response.body "error" = some (JsonVal.s c8Msg)
    ∧ strContains c8Msg "abc123" = true
    ∧ strContains (sanitize_error c8Msg) "abc123" = false
    ∧ sanitize_error c8Msg ≠ c8Msg := by
  decide

/-- Amended claim C8: for every run that ends in the terminal failure
outcome via a fetch exception, the error string placed in the response
payload is the raw exception message — the redaction filter is applied
only to the escalation notification, not to the response payload. -/
theorem failure_response_contains_raw_error
    (mode rid today now msg : String) (ttl : Nat)
    (rf wf : Option String) (estore : ExecStore) (fstore : FailStore)
    (tr : Except String String) (rs : List String) (ok : String → Bool)
    (hgate : alookup estore (ExecutionTracker.get_execution_key today mode) = none)
    (hbreaker : FailureTracker.should_skip_today rf fstore today = false) :
    (handler (mkInput mode false rid today now ttl none estore rf wf fstore
        (.otherError msg) tr rs ok)).response = respFailure msg "Exception" := by
  simp [handler, mkInput, ExecutionTracker.mark_execution,
    ExecutionTracker.put_item_conditional, hgate, hbreaker, fetchFailureBranch]

/-- Witness for the amended C8 at the concrete credential-bearing input. -/
theorem failure_response_contains_raw_error_witness :
    (alookup ([] : ExecStore) (ExecutionTracker.get_execution_key "2026-10-08" "opr") = none
     ∧ FailureTracker.should_skip_today none ([] : FailStore) "2026-10-08" = false)
    ∧ (handler (mkInput "opr" false "req-c8" "2026-10-08" "n" 7 none [] none none []
          (.otherError c8Msg) (.ok "p") ["a@example.com"] (fun _ => true))).response
      = respFailure c8Msg "Exception" :=
  ⟨⟨rfl, rfl⟩,
    failure_response_contains_raw_error "opr" "req-c8" "2026-10-08" "n" c8Msg 7
      none none [] [] (.ok "p") ["a@example.com"] (fun _ => true) rfl rfl⟩

/-- The fetch collaborator's not-published `ValueError` message. -/
def c9Msg : String := "오늘은 신문이 발행되지 않은 날입니다"

/-- A failure store with 2 failures already recorded for the day. -/
def c9Store : FailStore :=
  [("2026-10-08",
    { failure_count := 2, last_error := "boom", updated_at := "u", ttl := 7 })]

/-- Concrete invocation for C9: fetch raises the not-published condition. -/
def c9Input : HandlerInput :=
  mkInput "opr" false "req-c9" "2026-10-08" "n" 7 none [] none none c9Store
    (.valueError c9Msg) (.ok "p") ["a@example.com"] (fun _ => true)

/-- Counterexample to claim C9: on the not-published condition the run
does terminate skipped (status 200, `skipped = true`) and the failure
counter is untouched, but the response body carries NO reason entry at
all — no `not_published` value appears anywhere in the body. -/
theorem not_published_no_reason_counterexample :
    (handler c9Input).response.statusCode = 200
    ∧ alookup (handler c9Input).response.body "skipped" = some (JsonVal.b true)
    ∧ alookup (handler c9Input).response.body "reason" = none
    ∧ JsonVal.s "not_published" ∉ (handler c9Input).response.body.map Prod.snd
    ∧ (handler c9Input).failStore = c9Store := by
  decide

/-- Amended claim C9: when the fetch collaborator raises a `ValueError`
containing the not-published marker, the run terminates with the 200
skip response whose body is the message plus `skipped = true` (no reason
field), and the day's failure counter is not incremented. -/
theorem not_published_skip_response
    (mode rid today now msg : String) (ttl : Nat)
    (rf wf : Option String) (estore : ExecStore) (fstore : FailStore)
    (tr : Except String String) (rs : List String) (ok : String → Bool)
    (hmark : strContains msg notPublishedMarker = true)
    (hgate : alookup estore (ExecutionTracker.get_execution_key today mode) = none)
    (hbreaker : FailureTracker.should_skip_today rf fstore today = false) :
    (handler (mkInput mode false rid today now ttl none estore rf wf fstore
        (.valueError msg) tr rs ok)).response = respNotPublished
    ∧ (handler (mkInput mode false rid today now ttl none estore rf wf fstore
        (.valueError msg) tr rs ok)).failStore = fstore := by
  constructor <;>
    simp [handler, mkInput, ExecutionTracker.mark_execution,
      ExecutionTracker.put_item_conditional, hgate, hbreaker, hmark]

/-- Witness for the amended C9 at the concrete not-published input. -/
theorem not_published_skip_response_witness :
    (strContains c9Msg notPublishedMarker = true
     ∧ alookup ([] : ExecStore) (ExecutionTracker.get_execution_key "2026-10-08" "opr") = none
     ∧ FailureTracker.should_skip_today none c9Store "2026-10-08" = false)
    ∧ ((handler (mkInput "opr" false "req-c9" "2026-10-08" "n" 7 none [] none none c9Store
          (.valueError c9Msg) (.ok "p") ["a@example.com"] (fun _ => true))).response
        = respNotPublished
       ∧ (handler (mkInput "opr" false "req-c9" "2026-10-08" "n" 7 none [] none none c9Store
          (.valueError c9Msg) (.ok "p") ["a@example.com"] (fun _ => true))).failStore
        = c9Store) :=
  ⟨⟨by decide, rfl, by decide⟩,
    not_published_skip_response "opr" "req-c9" "2026-10-08" "n" c9Msg 7
      none none [] c9Store (.ok "p") ["a@example.com"] (fun _ => true)
      (by decide) rfl (by decide)⟩

end ItnewsSender
